import Mathlib

/-!
Verification of the Indico form-field layer (`indico/react/forms`):
the `FormFieldAdapter` error-visibility policy, the `FinalField`
validator assembly and change-notification guard, the
`FinalSubmitButton` state derivation, and the editing-module page
bootstrap (`DOMContentLoaded` handler).

Each definition is a shallow embedding of the corresponding JavaScript
function.  JavaScript truthiness of the string-valued `error` and
`submitError` props is modelled by `Option String` with `none` standing
for an absent (or falsy) message.
-/

namespace Indico

/-- The inputs of `FormFieldAdapter` that its error-visibility logic reads:
the `meta` object supplied by react-final-form (`touched`, `error`,
`submitError`, `submitting`, `dirty`, `dirtySinceLastSubmit`, `active`)
together with the caller-supplied props `required`, `hideValidationError`
and `hideErrorWhileActive`. -/
structure AdapterState where
  touched : Bool
  error : Option String
  submitError : Option String
  submitting : Bool
  dirty : Bool
  dirtySinceLastSubmit : Bool
  active : Bool
  required : Bool
  hideValidationError : Bool
  hideErrorWhileActive : Bool
deriving DecidableEq, Repr

/-- Condition of the first branch of the conditional chain in
`FormFieldAdapter`: `touched && error && (dirty || required)`. -/
def branch1Cond (s : AdapterState) : Bool :=
  s.touched && s.error.isSome && (s.dirty || s.required)

/-- Condition of the second branch: `submitError && !dirtySinceLastSubmit
&& !submitting`. -/
def branch2Cond (s : AdapterState) : Bool :=
  s.submitError.isSome && !s.dirtySinceLastSubmit && !s.submitting

/-- The `errorMessage` computed by `FormFieldAdapter`:

```
let errorMessage = null;
if (touched && error && (dirty || required)) \x7b
  if (!hideValidationError) \x7b errorMessage = error; \x7d
\x7d else if (submitError && !dirtySinceLastSubmit && !submitting) \x7b
  errorMessage = submitError;
\x7d
```
-/
def errorMessage (s : AdapterState) : Option String :=
  if s.touched && s.error.isSome && (s.dirty || s.required) then
    if !s.hideValidationError then s.error else none
  else if s.submitError.isSome && !s.dirtySinceLastSubmit && !s.submitting then
    s.submitError
  else
    none

/-- `showErrorPopup = !!errorMessage && (!hideErrorWhileActive || !active)`. -/
def showErrorPopup (s : AdapterState) : Bool :=
  (errorMessage s).isSome && (!s.hideErrorWhileActive || !s.active)

/-- Which assignment of the conditional chain in `FormFieldAdapter` fired:
the local-validation branch, the submit-error branch, or none (either no
condition held, or the first branch held but `hideValidationError`
suppressed the assignment). -/
inductive ErrorBranch where
  | localError
  | submitErr
  | noneSelected
deriving DecidableEq, Repr

/-- Records which branch of the conditional chain in `FormFieldAdapter`
assigned `errorMessage`; same control flow as `errorMessage`. -/
def selectedBranch (s : AdapterState) : ErrorBranch :=
  if s.touched && s.error.isSome && (s.dirty || s.required) then
    if !s.hideValidationError then ErrorBranch.localError else ErrorBranch.noneSelected
  else if s.submitError.isSome && !s.dirtySinceLastSubmit && !s.submitting then
    ErrorBranch.submitErr
  else
    ErrorBranch.noneSelected

/-- Concrete adapter state: an untouched field with a pending submit
error while `hideValidationError` is set. -/
def sC2 : AdapterState :=
  { touched := false, error := none, submitError := some "Submission failed",
    submitting := false, dirty := false, dirtySinceLastSubmit := false, active := false,
    required := false, hideValidationError := true, hideErrorWhileActive := false }

/-- Concrete adapter state: a touched, dirty field whose local error is
suppressed by `hideValidationError`. -/
def sC2a : AdapterState :=
  { touched := true, error := some "must not be empty", submitError := none,
    submitting := false, dirty := true, dirtySinceLastSubmit := false, active := false,
    required := false, hideValidationError := true, hideErrorWhileActive := false }

/-- Concrete adapter state: a pristine untouched field carrying a submit
error from the last submission. -/
def sC3 : AdapterState :=
  { touched := false, error := none, submitError := some "server rejected the value",
    submitting := false, dirty := false, dirtySinceLastSubmit := false, active := false,
    required := false, hideValidationError := false, hideErrorWhileActive := false }

/-- Concrete adapter state: a focused field with an eligible local error
and `hideErrorWhileActive` set. -/
def sC4 : AdapterState :=
  { touched := true, error := some "invalid value", submitError := none,
    submitting := false, dirty := true, dirtySinceLastSubmit := false, active := true,
    required := false, hideValidationError := false, hideErrorWhileActive := true }

/-- Concrete adapter state: branch 1 holds, a submit error is also
present, and `hideValidationError` suppresses the local error. -/
def sC9 : AdapterState :=
  { touched := true, error := some "invalid value", submitError := some "server error",
    submitting := false, dirty := true, dirtySinceLastSubmit := false, active := false,
    required := false, hideValidationError := true, hideErrorWhileActive := false }

/-- Concrete adapter state for the C1 witness: touched, dirty, local
error present, no suppression. -/
def sC1w : AdapterState :=
  { touched := true, error := some "must not be empty", submitError := none,
    submitting := false, dirty := true, dirtySinceLastSubmit := false, active := false,
    required := false, hideValidationError := false, hideErrorWhileActive := false }

namespace validators

/-- Modelled from the spec: `validators.required` (defined in
`validators.js`, which is not among the sources) is the auto-attached
"value must be present" rule — it fails with an error message when the
value is absent and passes otherwise. -/
def required {α : Type} (v : Option α) : Option String :=
  match v with
  | none => some "This field is required."
  | some _ => none

/-- Modelled from the spec: `validators.chain` (defined in
`validators.js`, which is not among the sources) combines two rules by
running each in turn and returning the first failure. -/
def chain {V : Type} (f g : V → Option String) (v : V) : Option String :=
  match f v with
  | some e => some e
  | none => g v

end validators

/-- The validator `FinalField` ends up passing to the underlying `Field`:
`extraProps.validate` is set to `validators.required` when the field is
marked required, and when both `extraProps.validate` and a caller-supplied
`rest.validate` exist they are replaced by their chain (with the
caller-supplied rule deleted from `rest`). -/
def finalFieldValidate {α : Type} (req : Bool)
    (restValidate : Option (Option α → Option String)) :
    Option (Option α → Option String) :=
  let extraValidate : Option (Option α → Option String) :=
    if req then some validators.required else none
  match extraValidate, restValidate with
  | some ev, some rv => some (validators.chain ev rv)
  | some ev, none => some ev
  | none, rv => rv

/-- A validation rule that always fails, for exercising `validators.chain`. -/
def ruleA : Option String → Option String := fun _ => some "rule A failed"

/-- A validation rule that always passes, for exercising `validators.chain`. -/
def ruleB : Option String → Option String := fun _ => none

/-- The listener `FinalField` registers with `OnChange`, with callback
invocations recorded as appended `(value, prev)` pairs: the callback runs
only when the new value is not deeply equal to the previous one. -/
def onChangeStep {α : Type} [DecidableEq α] (calls : List (α × α)) (value prev : α) :
    List (α × α) :=
  if value ≠ prev then calls ++ [(value, prev)] else calls

/-- Feeds a sequence of field-value events to the `OnChange` listener,
threading the previous value and the recorded callback invocations. -/
def onChangeRun {α : Type} [DecidableEq α] :
    List (α × α) → α → List α → List (α × α)
  | calls, _, [] => calls
  | calls, prev, v :: rest => onChangeRun (onChangeStep calls v prev) v rest

/-- The callback invocations produced by a whole value stream, the first
element being the initial value (no event fires for it). -/
def onChangeCallbacks {α : Type} [DecidableEq α] (stream : List α) : List (α × α) :=
  match stream with
  | [] => []
  | v :: rest => onChangeRun [] v rest

/-- The three form-wide flags `FinalSubmitButton` subscribes to via
`FormSpy`. -/
structure FormSpyState where
  hasValidationErrors : Bool
  pristine : Bool
  submitting : Bool
deriving DecidableEq, Repr

/-- The submit button's `disabled` prop:
`hasValidationErrors || pristine || submitting`. -/
def submitButtonDisabled (s : FormSpyState) : Bool :=
  s.hasValidationErrors || s.pristine || s.submitting

/-- The submit button's `loading` prop: `submitting`. -/
def submitButtonLoading (s : FormSpyState) : Bool :=
  s.submitting

/-- The argument list that `handleChange` in `FormFieldAdapter` forwards
to `input.onChange`: `getValue(...args)` as a single value when an
extraction function was supplied, the raw arguments spread unchanged
otherwise. -/
def handleChange {α : Type} (getValue : Option (List α → α)) (args : List α) : List α :=
  match getValue with
  | some f => [f args]
  | none => args

/-- A DOM element as the editing-module bootstrap reads it: its
`dataset.eventId` attribute value. -/
structure DomElement where
  eventIdAttr : String
deriving DecidableEq, Repr

/-- The page as the bootstrap sees it: the result of
`document.querySelector('#editing-filetypes')`, `none` when absent. -/
structure EditingPage where
  fileTypeElement : Option DomElement
deriving DecidableEq, Repr

/-- Digit characters at the front of a character list. -/
def leadingDigits (cs : List Char) : List Char :=
  cs.takeWhile Char.isDigit

/-- Numeric value of a list of decimal digit characters. -/
def digitsToNat (cs : List Char) : Nat :=
  cs.foldl (fun acc c => acc * 10 + (c.toNat - 48)) 0

/-- JavaScript `parseInt(s, 10)`: skip leading spaces, read an optional
sign and then the longest prefix of decimal digits; `none` models `NaN`
when no digits are found. -/
def parseInt10 (s : String) : Option Int :=
  let cs := s.data.dropWhile (fun c => c = ' ')
  match cs with
  | '-' :: rest =>
    let ds := leadingDigits rest
    if ds.isEmpty then none else some (-(digitsToNat ds : Int))
  | '+' :: rest =>
    let ds := leadingDigits rest
    if ds.isEmpty then none else some ((digitsToNat ds : Int))
  | _ =>
    let ds := leadingDigits cs
    if ds.isEmpty then none else some ((digitsToNat ds : Int))

/-- Possible non-throwing outcomes of the bootstrap handler. -/
inductive HandlerResult where
  | rendered (eventId : Option Int)
  | earlyReturn
deriving DecidableEq, Repr

/-- The `DOMContentLoaded` handler of the editing-module bootstrap, in
source order: query the element, read `dataset.eventId` from it (a read
that throws — modelled by `Except.error` — when the element is `null`),
then the null guard with its early return, then the render call. -/
def domReadyHandler (page : EditingPage) : Except String HandlerResult :=
  match page.fileTypeElement with
  | none => Except.error "TypeError: cannot read dataset of null"
  | some el =>
    let eventId := parseInt10 el.eventIdAttr
    if page.fileTypeElement.isNone then Except.ok HandlerResult.earlyReturn
    else Except.ok (HandlerResult.rendered eventId)

/-- A page on which `#editing-filetypes` is absent. -/
def missingPage : EditingPage :=
  { fileTypeElement := none }

/-- The message selected by `errorMessage` is exactly the one named by the
branch that `selectedBranch` records. -/
theorem errorMessage_eq_of_selectedBranch (s : AdapterState) :
    errorMessage s =
      match selectedBranch s with
      | ErrorBranch.localError => s.error
      | ErrorBranch.submitErr => s.submitError
      | ErrorBranch.noneSelected => none := by
  unfold errorMessage selectedBranch
  by_cases h1 : (s.touched && s.error.isSome && (s.dirty || s.required)) = true
  · by_cases h2 : s.hideValidationError = true <;> simp [h1, h2]
  · by_cases h2 : (s.submitError.isSome && !s.dirtySinceLastSubmit && !s.submitting) = true <;>
      simp [h1, h2]

/-- `errorMessage` restated through the named branch conditions. -/
theorem errorMessage_def (s : AdapterState) :
    errorMessage s =
      if branch1Cond s then
        if !s.hideValidationError then s.error else none
      else if branch2Cond s then s.submitError
      else none := rfl

/-- `selectedBranch` restated through the named branch conditions. -/
theorem selectedBranch_def (s : AdapterState) :
    selectedBranch s =
      if branch1Cond s then
        if !s.hideValidationError then ErrorBranch.localError else ErrorBranch.noneSelected
      else if branch2Cond s then ErrorBranch.submitErr
      else ErrorBranch.noneSelected := rfl

/-- Unfolding of the second branch condition into its three conjuncts. -/
theorem branch2Cond_eq_true_iff (s : AdapterState) :
    branch2Cond s = true ↔
      s.submitError.isSome = true ∧ s.dirtySinceLastSubmit = false ∧ s.submitting = false := by
  simp [branch2Cond, Bool.and_eq_true, Bool.not_eq_true']
  tauto

/-- C1: if the field is touched, a local error is present, the field is
dirty or required, and `hideValidationError` is unset, then the adapter
selects the local error as the active message. -/
theorem C1_local_error_selected (s : AdapterState)
    (ht : s.touched = true) (he : s.error.isSome = true)
    (hd : s.dirty = true ∨ s.required = true)
    (hh : s.hideValidationError = false) :
    errorMessage s = s.error := by
  have h1 : branch1Cond s = true := by
    rcases hd with h | h <;> simp [branch1Cond, ht, he, h]
  rw [errorMessage_def, if_pos h1, hh]
  simp

/-- C1 witness: on a concrete touched dirty state with a local error, the
active message is that error. -/
theorem C1_witness :
    sC1w.touched = true ∧ sC1w.error.isSome = true ∧ sC1w.dirty = true ∧
      sC1w.hideValidationError = false ∧ errorMessage sC1w = some "must not be empty" :=
  ⟨rfl, rfl, rfl, rfl, C1_local_error_selected sC1w rfl rfl (Or.inl rfl) rfl⟩

/-- C2 counterexample: with `hideValidationError = true` a message can
still be shown — an untouched field with a pending submit error displays
that submit error, refuting the claim that no message is ever shown. -/
theorem C2_counterexample :
    sC2.hideValidationError = true ∧
      errorMessage sC2 = some "Submission failed" ∧ showErrorPopup sC2 = true :=
  ⟨rfl, rfl, rfl⟩

/-- C2 amended: when `hideValidationError` is true the local-validation
branch never selects a message — if branch 1's condition holds, no message
is active at all; the submit-error branch is unaffected. -/
theorem C2_hideValidationError_suppresses_local (s : AdapterState)
    (hh : s.hideValidationError = true) :
    selectedBranch s ≠ ErrorBranch.localError ∧
      (branch1Cond s = true → errorMessage s = none) := by
  constructor
  · rw [selectedBranch_def, hh]
    by_cases h1 : branch1Cond s = true
    · simp [h1]
    · simp only [Bool.not_eq_true] at h1
      by_cases h2 : branch2Cond s = true <;> simp [h1, h2]
  · intro h1
    rw [errorMessage_def, if_pos h1, hh]
    simp

/-- C2 witness: on a concrete state where branch 1's condition holds and
`hideValidationError` is set, no message is active. -/
theorem C2_witness :
    sC2a.hideValidationError = true ∧ branch1Cond sC2a = true ∧
      selectedBranch sC2a ≠ ErrorBranch.localError ∧ errorMessage sC2a = none :=
  ⟨rfl, rfl, (C2_hideValidationError_suppresses_local sC2a rfl).1,
    (C2_hideValidationError_suppresses_local sC2a rfl).2 rfl⟩

/-- C3: the submit-error branch fires exactly when a submit error is
present, the field is not dirty since the last submit, no submission is in
flight, and branch 1's condition fails; when it fires the active message
is the submit error, and whenever `dirtySinceLastSubmit` is true the
submit error is never selected. -/
theorem C3_submit_error_selection (s : AdapterState) :
    (selectedBranch s = ErrorBranch.submitErr ↔
      s.submitError.isSome = true ∧ s.dirtySinceLastSubmit = false ∧
        s.submitting = false ∧ branch1Cond s = false) ∧
    (selectedBranch s = ErrorBranch.submitErr → errorMessage s = s.submitError) ∧
    (s.dirtySinceLastSubmit = true → selectedBranch s ≠ ErrorBranch.submitErr) := by
  have hmain : selectedBranch s = ErrorBranch.submitErr ↔
      branch1Cond s = false ∧ branch2Cond s = true := by
    rw [selectedBranch_def]
    cases h1 : branch1Cond s
    · cases h2 : branch2Cond s <;> simp
    · cases hh : s.hideValidationError <;> simp
  refine ⟨?_, ?_, ?_⟩
  · rw [hmain, branch2Cond_eq_true_iff]
    tauto
  · intro hsel
    rcases hmain.mp hsel with ⟨h1, h2⟩
    rw [errorMessage_def, if_neg (by simp [h1]), if_pos h2]
  · intro hdls hsel
    rcases hmain.mp hsel with ⟨h1, h2⟩
    rcases (branch2Cond_eq_true_iff s).mp h2 with ⟨h3, h4, h5⟩
    rw [hdls] at h4
    exact Bool.noConfusion h4

/-- C3 witness: on a concrete untouched state with a pending submit
error, the submit-error branch fires and the submit error is the active
message. -/
theorem C3_witness :
    selectedBranch sC3 = ErrorBranch.submitErr ∧ errorMessage sC3 = sC3.submitError :=
  ⟨(C3_submit_error_selection sC3).1.mpr ⟨rfl, rfl, rfl, rfl⟩,
    (C3_submit_error_selection sC3).2.1
      ((C3_submit_error_selection sC3).1.mpr ⟨rfl, rfl, rfl, rfl⟩)⟩

/-- C4: a selected message is rendered iff `hideErrorWhileActive` is
unset or the field is not active; in particular with
`hideErrorWhileActive = true` and `active = true` nothing is rendered. -/
theorem C4_popup_rendering (s : AdapterState) :
    ((errorMessage s).isSome = true →
      (showErrorPopup s = true ↔ (s.hideErrorWhileActive = false ∨ s.active = false))) ∧
    (s.hideErrorWhileActive = true → s.active = true → showErrorPopup s = false) := by
  constructor
  · intro h
    cases hh : s.hideErrorWhileActive <;> cases ha : s.active <;>
      simp [showErrorPopup, h, hh, ha]
  · intro hh ha
    simp [showErrorPopup, hh, ha]

/-- C4 witness: a concrete focused state with an eligible error and
`hideErrorWhileActive` set renders no popup even though a message is
selected. -/
theorem C4_witness :
    (errorMessage sC4).isSome = true ∧ sC4.hideErrorWhileActive = true ∧
      sC4.active = true ∧ showErrorPopup sC4 = false :=
  ⟨rfl, rfl, rfl, (C4_popup_rendering sC4).2 rfl rfl⟩

/-- C9: the two selection branches are mutually exclusive — when branch
1's condition holds the submit error is never selected, and if
`hideValidationError` additionally suppresses the local error, no message
is active and no popup is shown.  (At most one message is active by
construction: `errorMessage` yields a single optional value.) -/
theorem C9_branch_exclusivity (s : AdapterState) :
    (branch1Cond s = true → selectedBranch s ≠ ErrorBranch.submitErr) ∧
    (branch1Cond s = true → s.hideValidationError = true →
      errorMessage s = none ∧ showErrorPopup s = false) := by
  constructor
  · intro h1
    rw [selectedBranch_def, if_pos h1]
    cases hh : s.hideValidationError <;> simp
  · intro h1 hh
    have hmsg : errorMessage s = none := by
      rw [errorMessage_def, if_pos h1, hh]
      simp
    exact ⟨hmsg, by simp [showErrorPopup, hmsg]⟩

/-- C9 witness: on a concrete state where branch 1 holds alongside a
pending submit error, with the local error suppressed, nothing is shown
and the submit branch is not selected. -/
theorem C9_witness :
    branch1Cond sC9 = true ∧ sC9.submitError.isSome = true ∧
      selectedBranch sC9 ≠ ErrorBranch.submitErr ∧ errorMessage sC9 = none :=
  ⟨rfl, rfl, (C9_branch_exclusivity sC9).1 rfl,
    ((C9_branch_exclusivity sC9).2 rfl rfl).1⟩

/-- C5: a required `FinalField` attaches `validators.required`; with a
caller-supplied rule the two are chained, and the chain of any two rules
runs each in turn and returns the first failure, so an always-failing
first rule's failure is reported. -/
theorem C5_required_validator_chain :
    (∀ (rv : Option String → Option String),
        finalFieldValidate true (some rv) =
          some (validators.chain validators.required rv)) ∧
    (finalFieldValidate (α := String) true none = some validators.required) ∧
    (∀ (A B : Option String → Option String) (v : Option String) (e : String),
        A v = some e → validators.chain A B v = some e) := by
  refine ⟨fun rv => rfl, rfl, fun A B v e h => ?_⟩
  unfold validators.chain
  rw [h]

/-- C5 witness: chaining the always-failing `ruleA` with the
always-passing `ruleB` reports `ruleA`'s failure on a concrete value. -/
theorem C5_witness :
    ruleA (some "x") = some "rule A failed" ∧
      validators.chain ruleA ruleB (some "x") = some "rule A failed" :=
  ⟨rfl, C5_required_validator_chain.2.2 ruleA ruleB (some "x") "rule A failed" rfl⟩

/-- C6: the `OnChange` listener invokes the callback exactly at steps
where the new value is not equal to the previous one, and on the value
stream [1, 1, 2, 2, 3] exactly the transitions 1→2 and 2→3 fire. -/
theorem C6_change_notification :
    (∀ (calls : List (Nat × Nat)) (v p : Nat),
        (v ≠ p → onChangeStep calls v p = calls ++ [(v, p)]) ∧
        (v = p → onChangeStep calls v p = calls)) ∧
    onChangeCallbacks [1, 1, 2, 2, 3] = [(2, 1), (3, 2)] ∧
    (onChangeCallbacks [1, 1, 2, 2, 3]).length = 2 := by
  refine ⟨fun calls v p => ⟨fun h => ?_, fun h => ?_⟩, rfl, rfl⟩
  · simp [onChangeStep, h]
  · simp [onChangeStep, h]

/-- C6 witness: a differing pair fires the callback, an equal pair does
not, and the concrete stream yields exactly two calls. -/
theorem C6_witness :
    onChangeStep ([] : List (Nat × Nat)) 2 1 = [(2, 1)] ∧
      onChangeStep ([] : List (Nat × Nat)) 1 1 = [] ∧
      (onChangeCallbacks [1, 1, 2, 2, 3]).length = 2 :=
  ⟨(C6_change_notification.1 [] 2 1).1 (by decide),
    (C6_change_notification.1 [] 1 1).2 rfl,
    C6_change_notification.2.2⟩

/-- C7: the submit button is disabled iff `hasValidationErrors`,
`pristine` or `submitting` is true (enabled exactly when all three are
false), and shows the loading indicator iff `submitting` is true. -/
theorem C7_submit_button (s : FormSpyState) :
    (submitButtonDisabled s = true ↔
      (s.hasValidationErrors = true ∨ s.pristine = true ∨ s.submitting = true)) ∧
    (submitButtonDisabled s = false ↔
      (s.hasValidationErrors = false ∧ s.pristine = false ∧ s.submitting = false)) ∧
    (submitButtonLoading s = true ↔ s.submitting = true) := by
  rcases s with ⟨hv, pr, sb⟩
  cases hv <;> cases pr <;> cases sb <;>
    simp [submitButtonDisabled, submitButtonLoading]

/-- C8: when an extraction function is supplied, `handleChange` forwards
`getValue` applied to the event arguments; otherwise the raw arguments —
in particular the raw first argument — are forwarded unchanged. -/
theorem C8_handleChange_forwarding :
    (∀ (f : List Nat → Nat) (args : List Nat),
        handleChange (some f) args = [f args]) ∧
    (∀ (args : List Nat),
        handleChange (none : Option (List Nat → Nat)) args = args ∧
        (handleChange (none : Option (List Nat → Nat)) args).head? = args.head?) :=
  ⟨fun _ _ => rfl, fun _ => ⟨rfl, rfl⟩⟩

/-- C10: the bootstrap reads `dataset.eventId` before the null guard, so
on any page where `#editing-filetypes` is absent the handler throws a
TypeError and the guard's early return is never reached. -/
theorem C10_bootstrap_null_dereference (page : EditingPage)
    (h : page.fileTypeElement = none) :
    domReadyHandler page = Except.error "TypeError: cannot read dataset of null" ∧
      domReadyHandler page ≠ Except.ok HandlerResult.earlyReturn := by
  unfold domReadyHandler
  rw [h]
  exact ⟨rfl, by simp⟩

/-- C10 witness: on the concrete element-less page the handler throws
instead of returning early. -/
theorem C10_witness :
    missingPage.fileTypeElement = none ∧
      domReadyHandler missingPage = Except.error "TypeError: cannot read dataset of null" ∧
      domReadyHandler missingPage ≠ Except.ok HandlerResult.earlyReturn :=
  ⟨rfl, (C10_bootstrap_null_dereference missingPage rfl).1,
    (C10_bootstrap_null_dereference missingPage rfl).2⟩

end Indico
